import Mathlib

/-!
Verification of the factory-reset core of furios-recovery (src/main.c)
against its natural-language specification.

The embedding models the decision logic of the reset subsystem:

* `get_slot_suffix` / `slot_suffix_resolved` — slot resolution from the
  kernel command line (main.c:644-667) together with the empty-string
  default applied by the orchestrator (main.c:694-699);
* `check_password` — the password-gate decision logic (main.c:600-620);
* `factory_reset` — the reset run (main.c:686-874), modelled as a function
  from an abstract environment (`World`, the outcomes of the `stat`,
  `mount`, `opendir`, `readdir` and `system` calls the code performs) to
  the C return value together with the list of externally visible events
  (mounts, unmounts, external-tool invocations, partition writes) the run
  performs, in order;
* `perform_factory_reset` — the encryption-detection dispatch
  (main.c:529-569).

The filesystem is assumed stable for the duration of one run: the code
`stat`s several paths twice (e.g. /system_mnt/boot.img at main.c:754 and
again at main.c:786) and the model uses a single field for both
observations.  The dynamic-partition devices are the one exception: they
are deliberately re-probed after the activation tool may have materialised
them, so the model has separate fields for the probe at main.c:705-707 and
the mount-time checks at main.c:715/722.
-/

/-- Byte sequence of a C string, as a list of characters. -/
def chars (s : String) : List Char :=
  s.data

/-- `beginsWith p s` is `strncmp(s, p, strlen(p)) == 0`: `s` starts with `p`. -/
def beginsWith : List Char → List Char → Bool
  | [], _ => true
  | _ :: _, [] => false
  | p :: ps, c :: cs => p = c && beginsWith ps cs

/-!
## SlotResolver (main.c:644-667)

`fgets(buffer, 1024, cmdline)` reads at most 1023 characters of the first
line (stopping after a newline); `strstr` finds the first occurrence of
the key; `strncpy(result, token, 2)` copies at most the first two
characters of what follows (fewer if the string ends earlier).
-/

/-- The key searched for in /proc/cmdline (main.c:654). -/
def slotKey : List Char :=
  chars "androidboot.slot_suffix="

/-- `fgets` with a buffer of `n+1` bytes: up to `n` characters of the first
line, keeping a newline if one is reached. -/
def fgetsLine : Nat → List Char → List Char
  | 0, _ => []
  | _, [] => []
  | Nat.succ n, c :: cs => if c = '\n' then [c] else c :: fgetsLine n cs

/-- `strstr` followed by skipping the pattern: the suffix of `s` after the
first occurrence of `p`, or `none` when `p` does not occur. -/
def strstrTail (p : List Char) : List Char → Option (List Char)
  | [] => if p.isEmpty then some [] else none
  | c :: cs => if beginsWith p (c :: cs) then some ((c :: cs).drop p.length) else strstrTail p cs

/-- main.c:644-667.  `cmdline` is the readable content of /proc/cmdline
(`none` when `fopen` fails).  Returns `none` when the file is unreadable or
the key is absent (the C function returns NULL), otherwise the first at
most two characters following the key. -/
def get_slot_suffix (cmdline : Option (List Char)) : Option (List Char) :=
  match cmdline with
  | none => none
  | some s =>
    match strstrTail slotKey (fgetsLine 1023 s) with
    | none => none
    | some t => some (t.take 2)

/-- The suffix actually used by the orchestrator: a NULL result defaults to
the empty string (main.c:694-699). -/
def slot_suffix_resolved (cmdline : Option (List Char)) : List Char :=
  (get_slot_suffix cmdline).getD []

/-!
## EncryptionGate password check (main.c:600-620)

`check_password` keeps a process-lifetime `static int attempt_count`.  The
unlock helper is invoked unconditionally on every submission; `0`
(EXIT_SUCCESS) schedules the reset, `2` (wrong password) increments the
counter and, once the counter has reached 3, shows a
"Maximum password attempt reached" message; any other value does nothing.
-/

/-- One submission: given the current attempt counter and the unlock
helper's return value, produce the new counter, whether a factory reset was
scheduled, and whether the maximum-attempts message was shown. -/
def check_password (attempt_count : Nat) (result : Int) : Nat × Bool × Bool :=
  if result = 0 then (attempt_count, true, false)
  else if result = 2 then
    (attempt_count + 1, false, decide (3 ≤ attempt_count + 1))
  else (attempt_count, false, false)

/-- A sequence of submissions within one process lifetime, starting from
counter `c`: for each submission, whether it scheduled the reset and
whether the lockout message was shown. -/
def check_password_run (c : Nat) : List Int → List (Bool × Bool)
  | [] => []
  | r :: rs =>
    ((check_password c r).2.1, (check_password c r).2.2) ::
      check_password_run (check_password c r).1 rs

/-- Final value of the attempt counter after a sequence of submissions. -/
def final_count (c : Nat) : List Int → Nat
  | [] => c
  | r :: rs => final_count (check_password c r).1 rs

/-!
## The reset run (main.c:686-874)

`World` records the outcomes of every environment interaction the run can
perform, in the order the code would perform them.  `factory_reset w`
returns the C function's return value (`0` or `-1`) paired with the list of
externally visible events of the run.
-/

/-- Which of the two logical system-slot devices a mount call targets. -/
inductive Slot
  | A
  | B
deriving DecidableEq, Repr

/-- Source a boot/dtbo image is flashed from. -/
inductive Src
  | system
  | rootfs
deriving DecidableEq, Repr

/-- Externally visible events of a reset run. -/
inductive Ev
  /-- write to /proc/sys/vm/drop_caches (main.c:701, 871) -/
  | dropCaches
  /-- invocation of the dynamic-partition activation tool (main.c:708-709) -/
  | dmsetup
  /-- mount of a dynpart-system device on /system_mnt; `ok` is the call's success -/
  | mountSys (s : Slot) (ok : Bool)
  /-- umount of /system_mnt -/
  | umountSys
  /-- mount of droidian-droidian--rootfs on /rootfs_mnt -/
  | mountRootfs (ok : Bool)
  /-- umount of /rootfs_mnt -/
  | umountRootfs
  /-- the tar|dd pipeline extracting userdata onto the userdata partition -/
  | extract (ok : Bool)
  /-- opendir of /rootfs_mnt/boot -/
  | opendirBoot (ok : Bool)
  /-- dd of a boot image (file name `name`) onto block device `target` -/
  | flashBoot (src : Src) (name : List Char) (target : List Char) (ok : Bool)
  /-- dd of a dtbo image onto block device `target` -/
  | flashDtbo (src : Src) (name : List Char) (target : List Char) (ok : Bool)
deriving DecidableEq, Repr

/-- Outcomes of the stat/mount/opendir/readdir/system calls a run may make. -/
structure World where
  /-- stat /dev/disk/by-partlabel/super succeeds (main.c:703) -/
  superExists : Bool
  /-- stat /dev/mapper/dynpart-system_a succeeds at the probe (main.c:705) -/
  dynAAtProbe : Bool
  /-- stat /dev/mapper/dynpart-system_b succeeds at the probe (main.c:707) -/
  dynBAtProbe : Bool
  /-- exit status of the activation tool; discarded by the code (main.c:709) -/
  dmsetupOk : Bool
  /-- stat /dev/mapper/dynpart-system_a succeeds at mount time (main.c:715) -/
  dynAAtMount : Bool
  /-- stat /dev/mapper/dynpart-system_b succeeds at mount time (main.c:722) -/
  dynBAtMount : Bool
  /-- mount of dynpart-system_a succeeds (main.c:716) -/
  mountSysAOk : Bool
  /-- mount of dynpart-system_b succeeds (main.c:723) -/
  mountSysBOk : Bool
  /-- /system_mnt/userdata.img.tar.gz exists (main.c:735) -/
  userdataTar : Bool
  /-- /system_mnt/userdata-raw.img.tar.gz exists (main.c:737) -/
  userdataRawTar : Bool
  /-- the tar|dd extraction pipeline exits with status 0 (main.c:746) -/
  extractOk : Bool
  /-- /system_mnt/boot.img exists (main.c:754, re-checked at main.c:786) -/
  bootImg : Bool
  /-- /system_mnt/dtbo.img exists (main.c:770, re-checked at main.c:787) -/
  dtboImg : Bool
  /-- dd of /system_mnt/boot.img succeeds (main.c:758) -/
  flashBootSysOk : Bool
  /-- dd of /system_mnt/dtbo.img succeeds (main.c:774) -/
  flashDtboSysOk : Bool
  /-- /dev/mapper/droidian-droidian--rootfs exists (main.c:788) -/
  rootfsDev : Bool
  /-- mount of the rootfs fallback volume succeeds (main.c:791) -/
  mountRootfsOk : Bool
  /-- opendir /rootfs_mnt/boot succeeds (main.c:797) -/
  opendirOk : Bool
  /-- entries of /rootfs_mnt/boot in readdir enumeration order (main.c:805, 814) -/
  rootfsBootEntries : List (List Char)
  /-- dd of the fallback boot image succeeds (main.c:832) -/
  flashBootRootfsOk : Bool
  /-- dd of the fallback dtbo image succeeds (main.c:852) -/
  flashDtboRootfsOk : Bool
  /-- the slot suffix in use, after the empty default (main.c:694-699) -/
  slotSuffix : List Char
deriving DecidableEq, Repr

/-- Block device named by a partition label (main.c flash targets). -/
def partlabel (name : List Char) : List Char :=
  chars "/dev/disk/by-partlabel/" ++ name

/-- main.c:703-712: the activation tool is run only when the super device
exists and neither logical slot device was found at the probe. -/
def activationLog (w : World) : List Ev :=
  if w.superExists && !w.dynAAtProbe && !w.dynBAtProbe then [Ev.dmsetup] else []

/-- Flash of /system_mnt/boot.img when present (main.c:754-768); its
failure only prints a message. -/
def bootSysLog (w : World) : List Ev :=
  if w.bootImg then
    [Ev.flashBoot Src.system (chars "boot.img") (partlabel (chars "boot" ++ w.slotSuffix))
      w.flashBootSysOk]
  else []

/-- Flash of /system_mnt/dtbo.img when present (main.c:770-784). -/
def dtboSysLog (w : World) : List Ev :=
  if w.dtboImg then
    [Ev.flashDtbo Src.system (chars "dtbo.img") (partlabel (chars "dtbo" ++ w.slotSuffix))
      w.flashDtboSysOk]
  else []

/-- First readdir entry of /rootfs_mnt/boot whose name begins with
"boot.img" (main.c:805-811), flashed when found (main.c:824-842). -/
def rootfsBootFlash (w : World) : List Ev :=
  match w.rootfsBootEntries.find? (fun n => beginsWith (chars "boot.img") n) with
  | some n =>
    [Ev.flashBoot Src.rootfs n (partlabel (chars "boot" ++ w.slotSuffix)) w.flashBootRootfsOk]
  | none => []

/-- First readdir entry of /rootfs_mnt/boot whose name begins with
"dtbo.img" (main.c:813-820), flashed when found (main.c:844-862). -/
def rootfsDtboFlash (w : World) : List Ev :=
  match w.rootfsBootEntries.find? (fun n => beginsWith (chars "dtbo.img") n) with
  | some n =>
    [Ev.flashDtbo Src.rootfs n (partlabel (chars "dtbo" ++ w.slotSuffix)) w.flashDtboRootfsOk]
  | none => []

/-- The rootfs fallback block (main.c:786-868), entered when boot.img or
dtbo.img was missing from /system_mnt.  Returns the C return value it
forces (`0` = fall through to the final unmount, `-1` = early return) and
its events.  Note the two early returns at main.c:794 and main.c:800-801
do not unmount /system_mnt. -/
def fallbackPhase (w : World) : Int × List Ev :=
  if w.rootfsDev then
    if !w.mountRootfsOk then (-1, [Ev.mountRootfs false])
    else if !w.opendirOk then (-1, [Ev.mountRootfs true, Ev.opendirBoot false, Ev.umountRootfs])
    else
      (0, [Ev.mountRootfs true, Ev.opendirBoot true] ++
        rootfsBootFlash w ++ rootfsDtboFlash w ++ [Ev.umountRootfs])
  else (0, [])

/-- main.c:735-873: the part of the run after /system_mnt was mounted. -/
def afterMount (w : World) : Int × List Ev :=
  if !w.userdataTar && !w.userdataRawTar then (-1, [Ev.umountSys])
  else if !w.extractOk then (-1, [Ev.extract false, Ev.umountSys])
  else
    let pre := Ev.extract true :: (bootSysLog w ++ dtboSysLog w)
    if !w.bootImg || !w.dtboImg then
      let fb := fallbackPhase w
      if fb.1 = 0 then (0, pre ++ fb.2 ++ [Ev.umountSys, Ev.dropCaches])
      else (-1, pre ++ fb.2)
    else (0, pre ++ [Ev.umountSys, Ev.dropCaches])

/-- main.c:686-874: the whole reset run.  The initial cache drop is
main.c:701; the mount selection mirrors main.c:714-733 (slot A preferred,
the mount-time stats deciding). -/
def factory_reset (w : World) : Int × List Ev :=
  let base := Ev.dropCaches :: activationLog w
  if w.dynAAtMount then
    if w.mountSysAOk then
      let r := afterMount w
      (r.1, base ++ [Ev.mountSys Slot.A true] ++ r.2)
    else (-1, base ++ [Ev.mountSys Slot.A false])
  else if w.dynBAtMount then
    if w.mountSysBOk then
      let r := afterMount w
      (r.1, base ++ [Ev.mountSys Slot.B true] ++ r.2)
    else (-1, base ++ [Ev.mountSys Slot.B false])
  else (-1, base)

/-- The signal handler (main.c:1080-1084) resets the terminal and calls
exit(0); it performs none of the events above — in particular no unmount. -/
def sigaction_handler_events : List Ev :=
  []

/-!
## Derived observations on a run's event list
-/

/-- Change an event makes to the number of open scratch mounts: a
successful mount opens one, an unmount closes one. -/
def mountDelta : Ev → Int
  | Ev.mountSys _ true => 1
  | Ev.mountRootfs true => 1
  | Ev.umountSys => -1
  | Ev.umountRootfs => -1
  | _ => 0

/-- Number of scratch mounts still open after the events `l`. -/
def openScratchMounts (l : List Ev) : Int :=
  (l.map mountDelta).sum

/-- Whether an event is a boot or dtbo partition write. -/
def isFlashEv : Ev → Bool
  | Ev.flashBoot _ _ _ _ => true
  | Ev.flashDtbo _ _ _ _ => true
  | _ => false

/-- Number of boot/dtbo partition writes attempted in `l`. -/
def flashWrites (l : List Ev) : Nat :=
  (l.filter isFlashEv).length

/-- Whether an event is a mount call for a system-slot device. -/
def isSysMountEv : Ev → Bool
  | Ev.mountSys _ _ => true
  | _ => false

/-- The system-slot mount calls among `l`, in order. -/
def sysMountEvs (l : List Ev) : List Ev :=
  l.filter isSysMountEv

/-- Whether an event is a boot-image partition write. -/
def isBootFlashEv : Ev → Bool
  | Ev.flashBoot _ _ _ _ => true
  | _ => false

/-- The boot-image partition writes among `l`, in order. -/
def bootFlashEvs (l : List Ev) : List Ev :=
  l.filter isBootFlashEv

/-- Whether an event is a flash sourced from the rootfs fallback. -/
def isRootfsFlashEv : Ev → Bool
  | Ev.flashBoot Src.rootfs _ _ _ => true
  | Ev.flashDtbo Src.rootfs _ _ _ => true
  | _ => false

/-- The fallback-sourced partition writes among `l`, in order. -/
def rootfsFlashEvs (l : List Ev) : List Ev :=
  l.filter isRootfsFlashEv

/-- Whether the system slot was mounted successfully (guard of
main.c:714-733 reaching main.c:735). -/
def sysMountOk (w : World) : Bool :=
  if w.dynAAtMount then w.mountSysAOk
  else if w.dynBAtMount then w.mountSysBOk
  else false

/-- Whether one of the two recognised userdata archive names exists. -/
def archivePresent (w : World) : Bool :=
  w.userdataTar || w.userdataRawTar

/-- Whether the rootfs fallback block is entered and aborts the run
(main.c:794 or main.c:800-801). -/
def fallbackFatal (w : World) : Bool :=
  (!w.bootImg || !w.dtboImg) && w.rootfsDev && (!w.mountRootfsOk || !w.opendirOk)

/-!
## Encryption-detection dispatch (main.c:529-569)

`perform_factory_reset` calls `is_lv_encrypted_with_luks` on the reserved
volume; `encResult` is that call's return value.  `-1` shows the failure
message box without running the reset; `1` builds the password UI
(`decrypt()`) and returns; anything else runs `factory_reset` and reports
its result.
-/

/-- What the UI collaborator observes from one invocation of
`perform_factory_reset`. -/
inductive ResetUiOutcome
  /-- "Failed to factory reset" message box; the reset never ran -/
  | failNoReset
  /-- password UI built by `decrypt()`; the reset is suspended -/
  | passwordRequested
  /-- the reset ran; `ok` reports the success vs. failure message box -/
  | resetCompleted (ok : Bool)
deriving DecidableEq, Repr

/-- main.c:529-569, with the environment of the inner `factory_reset` run
abstracted as `w`. -/
def perform_factory_reset (encResult : Int) (w : World) : ResetUiOutcome :=
  if encResult = -1 then ResetUiOutcome.failNoReset
  else if encResult = 1 then ResetUiOutcome.passwordRequested
  else ResetUiOutcome.resetCompleted ((factory_reset w).1 == 0)

/-- Whether `perform_factory_reset` ran the reset. -/
def reset_attempted (encResult : Int) (w : World) : Bool :=
  match perform_factory_reset encResult w with
  | ResetUiOutcome.resetCompleted _ => true
  | _ => false

/-!
## Concrete environments used for witnesses and counterexamples
-/

/-- A run in which everything succeeds and both images are on the system
slot: no fallback needed. -/
def WAllGood : World where
  superExists := false
  dynAAtProbe := true
  dynBAtProbe := false
  dmsetupOk := true
  dynAAtMount := true
  dynBAtMount := false
  mountSysAOk := true
  mountSysBOk := true
  userdataTar := true
  userdataRawTar := false
  extractOk := true
  bootImg := true
  dtboImg := true
  flashBootSysOk := true
  flashDtboSysOk := true
  rootfsDev := true
  mountRootfsOk := true
  opendirOk := true
  rootfsBootEntries := []
  flashBootRootfsOk := true
  flashDtboRootfsOk := true
  slotSuffix := chars "_a"

/-- A run in which userdata extraction succeeds, boot.img is missing from
the system slot, the rootfs fallback device exists but mounting it fails
(main.c:791-795). -/
def WRootfsMountFails : World :=
  { WAllGood with bootImg := false, rootfsDev := true, mountRootfsOk := false }

/-- A run in which userdata extraction succeeds, dtbo.img is missing from
the system slot, the fallback mounts but opendir of its boot directory
fails (main.c:797-802). -/
def WOpendirFails : World :=
  { WAllGood with dtboImg := false, opendirOk := false }

/-- A run in which neither recognised userdata archive exists on the
mounted system slot. -/
def WNoArchive : World :=
  { WAllGood with userdataTar := false, userdataRawTar := false }

/-- A run in which boot.img is present on the system slot, dtbo.img is
absent, and the fallback's boot directory holds a kernel-suffixed boot
image: the code searches for and flashes the boot image a second time. -/
def WRefetchBoot : World :=
  { WAllGood with dtboImg := false,
                  rootfsBootEntries := [chars "boot.img-5.10", chars "dtbo.img-5.10"] }

/-!
## Helper lemmas
-/

theorem check_password_run_append (xs : List Int) : ∀ (c : Nat) (ys : List Int),
    check_password_run c (xs ++ ys) =
      check_password_run c xs ++ check_password_run (final_count c xs) ys := by
  induction xs with
  | nil => intro c ys; rfl
  | cons r rs ih =>
    intro c ys
    have h := ih (check_password c r).1 ys
    show ((check_password c r).2.1, (check_password c r).2.2) ::
        check_password_run (check_password c r).1 (rs ++ ys) = _
    rw [h]
    rfl

theorem check_password_run_length (rs : List Int) : ∀ c : Nat,
    (check_password_run c rs).length = rs.length := by
  induction rs with
  | nil => intro c; rfl
  | cons r rs ih => intro c; simp only [check_password_run, List.length_cons, ih]

/-!
## Claim theorems
-/

/-- C2 counterexample: with three wrong-password submissions (helper result
2) followed by a correct one (helper result 0), all four submissions are
evaluated and the fourth schedules the factory reset — contradicting the
claim that after the 3rd failed attempt no further submission is evaluated
and a 4th correct submission never unlocks. -/
theorem C2_counterexample :
    check_password_run 0 [2, 2, 2, 0] =
      [(false, false), (false, false), (false, true), (true, false)] := by
  decide

/-- C2 (amended): `check_password` never locks out.  Every submission is
evaluated (one output per submission), and a correct submission after any
history — including three or more failures — is evaluated and schedules
the factory reset. -/
theorem C2_no_lockout : ∀ (c : Nat) (rs : List Int),
    (check_password_run c rs).length = rs.length ∧
    check_password_run c (rs ++ [0]) = check_password_run c rs ++ [(true, false)] := by
  intro c rs
  refine ⟨check_password_run_length rs c, ?_⟩
  rw [check_password_run_append]
  simp [check_password_run, check_password]

/-- C4 counterexample: when the key is present but only one character
follows it, the resolver returns that single character — neither a
two-character token nor the empty string the claim requires for every
not-well-formed case. -/
theorem C4_counterexample :
    slot_suffix_resolved (some (chars "androidboot.slot_suffix=a")) ≠ [] ∧
    (slot_suffix_resolved (some (chars "androidboot.slot_suffix=a"))).length ≠ 2 := by
  decide

/-- C4 (amended): the resolver composed with the orchestrator's empty
default never yields more than two characters; an unreadable command line
or an absent key resolve to the empty string; and when the key occurs in
the read window, the result is the first at most two characters following
it — a shorter remainder, not the empty string, when fewer than two
characters follow. -/
theorem C4_slot_resolver : ∀ c : Option (List Char),
    (slot_suffix_resolved c).length ≤ 2 ∧
    (c = none → slot_suffix_resolved c = []) ∧
    (∀ s, c = some s → strstrTail slotKey (fgetsLine 1023 s) = none →
      slot_suffix_resolved c = []) ∧
    (∀ s t, c = some s → strstrTail slotKey (fgetsLine 1023 s) = some t →
      slot_suffix_resolved c = t.take 2) := by
  intro c
  refine ⟨?_, ?_, ?_, ?_⟩
  · cases c with
    | none => simp [slot_suffix_resolved, get_slot_suffix]
    | some s =>
      simp only [slot_suffix_resolved, get_slot_suffix]
      cases h : strstrTail slotKey (fgetsLine 1023 s) with
      | none => simp
      | some t => simp [List.length_take]
  · rintro rfl; rfl
  · rintro s rfl h
    simp [slot_suffix_resolved, get_slot_suffix, h]
  · rintro s t rfl h
    simp [slot_suffix_resolved, get_slot_suffix, h]

/-- C4 witness: a well-formed command line resolves to its two-character
token. -/
theorem C4_slot_resolver_witness :
    slot_suffix_resolved (some (chars "quiet androidboot.slot_suffix=_b rw")) = ['_', 'b'] :=
  (C4_slot_resolver (some (chars "quiet androidboot.slot_suffix=_b rw"))).2.2.2
    (chars "quiet androidboot.slot_suffix=_b rw") (chars "_b rw") rfl (by decide)

/-- C9: the encryption-detection dispatch distinguishes the three detector
results: `-1` (header inspection I/O error) shows the failure box and never
runs the reset, `1` (locked header) requests a password and never runs the
reset, `0` (not encrypted or already unlocked) runs the reset and reports
its result; over the detector's three possible results, only `0` runs the
reset. -/
theorem C9_encryption_dispatch : ∀ (r : Int) (w : World),
    (r = -1 → perform_factory_reset r w = ResetUiOutcome.failNoReset ∧
      reset_attempted r w = false) ∧
    (r = 1 → perform_factory_reset r w = ResetUiOutcome.passwordRequested ∧
      reset_attempted r w = false) ∧
    (r = 0 → perform_factory_reset r w =
      ResetUiOutcome.resetCompleted ((factory_reset w).1 == 0)) ∧
    (r = -1 ∨ r = 0 ∨ r = 1 → (reset_attempted r w = true ↔ r = 0)) := by
  intro r w
  refine ⟨?_, ?_, ?_, ?_⟩
  · rintro rfl; exact ⟨rfl, rfl⟩
  · rintro rfl; exact ⟨rfl, rfl⟩
  · rintro rfl; rfl
  · rintro (rfl | rfl | rfl) <;> simp [reset_attempted, perform_factory_reset]

/-- C9 witness: a header-inspection I/O error produces the failure outcome
with no reset attempted. -/
theorem C9_encryption_dispatch_witness :
    perform_factory_reset (-1) WAllGood = ResetUiOutcome.failNoReset ∧
    reset_attempted (-1) WAllGood = false :=
  (C9_encryption_dispatch (-1) WAllGood).1 rfl

/-- C10: one password submission increments the attempt counter exactly
when the unlock helper returns 2; a helper result of 0 (EXIT_SUCCESS)
schedules the reset and leaves the counter alone; any other result leaves
the counter unchanged, schedules nothing and shows no message. -/
theorem C10_helper_result_cases : ∀ (c : Nat) (r : Int),
    (r = 0 → check_password c r = (c, true, false)) ∧
    (r = 2 → check_password c r = (c + 1, false, decide (3 ≤ c + 1))) ∧
    (r ≠ 0 → r ≠ 2 → check_password c r = (c, false, false)) := by
  intro c r
  refine ⟨?_, ?_, ?_⟩
  · rintro rfl; rfl
  · rintro rfl; rfl
  · intro h0 h2; simp [check_password, h0, h2]

/-- C10 witness: helper result 5 (e.g. an internal unlock error) is
silently ignored, while result 0 schedules the reset. -/
theorem C10_helper_result_cases_witness :
    check_password 1 5 = (1, false, false) ∧ check_password 4 0 = (4, true, false) :=
  ⟨(C10_helper_result_cases 1 5).2.2 (by decide) (by decide),
   (C10_helper_result_cases 4 0).1 rfl⟩

theorem fallbackPhase_ret (w : World) :
    (fallbackPhase w).1 =
      if w.rootfsDev && (!w.mountRootfsOk || !w.opendirOk) then -1 else 0 := by
  simp only [fallbackPhase]
  by_cases hr : w.rootfsDev <;> by_cases hm : w.mountRootfsOk <;> by_cases ho : w.opendirOk <;>
    simp [hr, hm, ho]

set_option maxHeartbeats 2000000 in
theorem afterMount_ret (w : World) :
    (afterMount w).1 =
      if archivePresent w && w.extractOk && !fallbackFatal w then 0 else -1 := by
  simp only [afterMount, archivePresent, fallbackFatal, fallbackPhase_ret]
  by_cases hu : w.userdataTar <;> by_cases hur : w.userdataRawTar <;>
    by_cases he : w.extractOk <;> by_cases hb : w.bootImg <;> by_cases hd : w.dtboImg <;>
    by_cases hr : w.rootfsDev <;> by_cases hm : w.mountRootfsOk <;>
    by_cases ho : w.opendirOk <;>
    simp [hu, hur, he, hb, hd, hr, hm, ho]

theorem factory_reset_ret (w : World) :
    (factory_reset w).1 =
      if sysMountOk w && archivePresent w && w.extractOk && !fallbackFatal w then 0
      else -1 := by
  simp only [factory_reset, sysMountOk]
  by_cases hA : w.dynAAtMount <;> by_cases hAok : w.mountSysAOk <;>
    by_cases hB : w.dynBAtMount <;> by_cases hBok : w.mountSysBOk <;>
    simp [hA, hAok, hB, hBok, afterMount_ret]

theorem filter_activationLog (p : Ev → Bool) (h : p Ev.dmsetup = false) (w : World) :
    (activationLog w).filter p = [] := by
  simp only [activationLog]
  split_ifs <;> simp [h]

theorem filter_rootfsBootFlash_none (p : Ev → Bool)
    (h : ∀ s n t ok, p (Ev.flashBoot s n t ok) = false) (w : World) :
    (rootfsBootFlash w).filter p = [] := by
  simp only [rootfsBootFlash]
  cases w.rootfsBootEntries.find? (fun n => beginsWith (chars "boot.img") n) <;> simp [h]

theorem filter_rootfsDtboFlash_none (p : Ev → Bool)
    (h : ∀ s n t ok, p (Ev.flashDtbo s n t ok) = false) (w : World) :
    (rootfsDtboFlash w).filter p = [] := by
  simp only [rootfsDtboFlash]
  cases w.rootfsBootEntries.find? (fun n => beginsWith (chars "dtbo.img") n) <;> simp [h]

theorem filter_rootfsBootFlash_all (w : World) :
    (rootfsBootFlash w).filter isRootfsFlashEv = rootfsBootFlash w := by
  simp only [rootfsBootFlash]
  cases w.rootfsBootEntries.find? (fun n => beginsWith (chars "boot.img") n) <;>
    simp [isRootfsFlashEv]

theorem filter_rootfsDtboFlash_all (w : World) :
    (rootfsDtboFlash w).filter isRootfsFlashEv = rootfsDtboFlash w := by
  simp only [rootfsDtboFlash]
  cases w.rootfsBootEntries.find? (fun n => beginsWith (chars "dtbo.img") n) <;>
    simp [isRootfsFlashEv]

theorem dmsetup_not_mem_rootfsBootFlash (w : World) : Ev.dmsetup ∉ rootfsBootFlash w := by
  simp only [rootfsBootFlash]
  cases w.rootfsBootEntries.find? (fun n => beginsWith (chars "boot.img") n) <;> simp

theorem dmsetup_not_mem_rootfsDtboFlash (w : World) : Ev.dmsetup ∉ rootfsDtboFlash w := by
  simp only [rootfsDtboFlash]
  cases w.rootfsBootEntries.find? (fun n => beginsWith (chars "dtbo.img") n) <;> simp

set_option maxHeartbeats 2000000 in
theorem filter_afterMount_sysMount (w : World) :
    (afterMount w).2.filter isSysMountEv = [] := by
  have h1 := filter_rootfsBootFlash_none isSysMountEv (fun s n t ok => rfl) w
  have h2 := filter_rootfsDtboFlash_none isSysMountEv (fun s n t ok => rfl) w
  simp only [afterMount, fallbackPhase, bootSysLog, dtboSysLog]
  split_ifs <;> simp_all [List.filter_append, isSysMountEv]

set_option maxHeartbeats 2000000 in
theorem dmsetup_not_mem_afterMount (w : World) : Ev.dmsetup ∉ (afterMount w).2 := by
  have h1 := dmsetup_not_mem_rootfsBootFlash w
  have h2 := dmsetup_not_mem_rootfsDtboFlash w
  simp only [afterMount, fallbackPhase, bootSysLog, dtboSysLog]
  split_ifs <;> simp_all

theorem sysMountEvs_factory_reset (w : World) :
    sysMountEvs (factory_reset w).2 =
      if w.dynAAtMount then [Ev.mountSys Slot.A w.mountSysAOk]
      else if w.dynBAtMount then [Ev.mountSys Slot.B w.mountSysBOk]
      else [] := by
  have ham := filter_afterMount_sysMount w
  have hact := filter_activationLog isSysMountEv rfl w
  simp only [factory_reset, sysMountEvs]
  by_cases hA : w.dynAAtMount <;> by_cases hAok : w.mountSysAOk <;>
    by_cases hB : w.dynBAtMount <;> by_cases hBok : w.mountSysBOk <;>
    simp [hA, hAok, hB, hBok, List.filter_append, isSysMountEv, ham, hact]

theorem filter_afterMount_no_userdata (w : World)
    (h : archivePresent w = false ∨ w.extractOk = false) :
    (afterMount w).2.filter isFlashEv = [] := by
  simp only [afterMount]
  rcases h with h | h
  · simp only [archivePresent, Bool.or_eq_false_iff] at h
    simp [h.1, h.2, isFlashEv]
  · by_cases hu : w.userdataTar <;> by_cases hur : w.userdataRawTar <;>
      simp [h, hu, hur, isFlashEv]

theorem filter_bootSysLog_none (p : Ev → Bool)
    (h : ∀ n t ok, p (Ev.flashBoot Src.system n t ok) = false) (w : World) :
    (bootSysLog w).filter p = [] := by
  simp only [bootSysLog]
  split_ifs <;> simp [h]

theorem filter_dtboSysLog_none (p : Ev → Bool)
    (h : ∀ n t ok, p (Ev.flashDtbo Src.system n t ok) = false) (w : World) :
    (dtboSysLog w).filter p = [] := by
  simp only [dtboSysLog]
  split_ifs <;> simp [h]

theorem rootfsFlashEvs_afterMount (w : World) (ha : archivePresent w = true)
    (he : w.extractOk = true) (hf : w.bootImg = false ∨ w.dtboImg = false)
    (hr : w.rootfsDev = true) (hm : w.mountRootfsOk = true) (ho : w.opendirOk = true) :
    (afterMount w).2.filter isRootfsFlashEv = rootfsBootFlash w ++ rootfsDtboFlash w := by
  have h1 := filter_rootfsBootFlash_all w
  have h2 := filter_rootfsDtboFlash_all w
  have h3 := filter_bootSysLog_none isRootfsFlashEv (fun n t ok => rfl) w
  have h4 := filter_dtboSysLog_none isRootfsFlashEv (fun n t ok => rfl) w
  simp only [archivePresent, Bool.or_eq_true] at ha
  have hcond : (!w.userdataTar && !w.userdataRawTar) = false := by
    rcases ha with h | h <;> simp [h]
  have hfb : (!w.bootImg || !w.dtboImg) = true := by
    rcases hf with h | h <;> simp [h]
  simp only [afterMount, fallbackPhase]
  simp [hcond, he, hfb, hr, hm, ho, List.filter_append, isRootfsFlashEv, h1, h2, h3, h4]

/-- C1: evaluation of the reset run in an environment where userdata was
extracted successfully, boot.img is absent from the system slot and the
mount of the rootfs fallback volume fails (main.c:791-795): the run
returns -1 with the /system_mnt scratch mount still open, and the
termination-signal handler closes no scratch mount either — the cleanup
invariant claimed by the spec does not hold on these paths. -/
theorem C1_cleanup_leak :
    (factory_reset WRootfsMountFails).1 = -1 ∧
    openScratchMounts (factory_reset WRootfsMountFails).2 = 1 ∧
    ∀ l : List Ev, openScratchMounts (l ++ sigaction_handler_events) = openScratchMounts l := by
  refine ⟨by decide, by decide, fun l => ?_⟩
  simp [sigaction_handler_events]

/-- C3 counterexample: a run whose userdata extract-and-write step
succeeded but whose fallback boot-directory enumeration failed returns -1,
not Success — contradicting the claim that a failed mount or enumeration
of the rootfs fallback is non-fatal. -/
theorem C3_counterexample :
    WOpendirFails.extractOk = true ∧ (factory_reset WOpendirFails).1 = -1 := by
  decide

/-- C3 (amended): when the system slot is mounted, a userdata archive is
found and its extraction succeeds, the run ends in Success if and only if
the rootfs fallback block does not abort it — missing boot/dtbo images and
failed boot/dtbo writes are non-fatal, but a failed mount of the fallback
volume or a failed opendir of its boot directory makes the run return -1. -/
theorem C3_success_unless_fallback_fatal : ∀ w : World,
    sysMountOk w = true → archivePresent w = true → w.extractOk = true →
    ((factory_reset w).1 = 0 ↔ fallbackFatal w = false) := by
  intro w hm ha he
  rw [factory_reset_ret, hm, ha, he]
  cases hf : fallbackFatal w <;> simp [hf]

/-- C3 witness: a fully successful run returns 0. -/
theorem C3_success_unless_fallback_fatal_witness : (factory_reset WAllGood).1 = 0 :=
  (C3_success_unless_fallback_fatal WAllGood (by decide) (by decide) (by decide)).mpr
    (by decide)

/-- C5: whenever neither recognised userdata archive exists or the
extract-and-write command fails, the run returns -1 and no boot or dtbo
partition write is ever attempted. -/
theorem C5_userdata_gate : ∀ w : World,
    archivePresent w = false ∨ w.extractOk = false →
    (factory_reset w).1 = -1 ∧ flashWrites (factory_reset w).2 = 0 := by
  intro w h
  constructor
  · rw [factory_reset_ret]
    rcases h with h | h <;> simp [h]
  · have ham := filter_afterMount_no_userdata w h
    have hact := filter_activationLog isFlashEv rfl w
    simp only [factory_reset, flashWrites]
    by_cases hA : w.dynAAtMount <;> by_cases hAok : w.mountSysAOk <;>
      by_cases hB : w.dynBAtMount <;> by_cases hBok : w.mountSysBOk <;>
      simp_all [List.filter_append, isFlashEv]

/-- C5 witness: with both archive names absent the run fails with no
partition write. -/
theorem C5_userdata_gate_witness :
    (factory_reset WNoArchive).1 = -1 ∧ flashWrites (factory_reset WNoArchive).2 = 0 :=
  C5_userdata_gate WNoArchive (Or.inl (by decide))

/-- C6 counterexample: boot.img is present on the system slot (and flashed
from it), dtbo.img is absent; the fallback nevertheless searches for and
flashes a boot image again from the rootfs boot directory — the boot
partition is written twice, contradicting the claim that an image already
flashed from the system slot is not searched for or re-flashed. -/
theorem C6_counterexample :
    WRefetchBoot.bootImg = true ∧
    bootFlashEvs (factory_reset WRefetchBoot).2 =
      [Ev.flashBoot Src.system (chars "boot.img") (partlabel (chars "boot_a")) true,
       Ev.flashBoot Src.rootfs (chars "boot.img-5.10") (partlabel (chars "boot_a")) true] := by
  decide

/-- C6 (amended): when at least one of boot.img/dtbo.img is absent from
the system slot and the fallback volume mounts and enumerates, the
fallback-sourced partition writes of the run are exactly: the first
enumeration entry whose name begins with "boot.img" flashed to
boot<suffix>, and the first entry whose name begins with "dtbo.img"
flashed to dtbo<suffix> — for both images, regardless of which one was
missing, including an image already flashed from the system slot. -/
theorem C6_fallback_search : ∀ w : World,
    sysMountOk w = true → archivePresent w = true → w.extractOk = true →
    (w.bootImg = false ∨ w.dtboImg = false) →
    w.rootfsDev = true → w.mountRootfsOk = true → w.opendirOk = true →
    rootfsFlashEvs (factory_reset w).2 = rootfsBootFlash w ++ rootfsDtboFlash w := by
  intro w hm ha he hf hr hmo ho
  have key := rootfsFlashEvs_afterMount w ha he hf hr hmo ho
  have hact := filter_activationLog isRootfsFlashEv rfl w
  simp only [sysMountOk] at hm
  simp only [factory_reset, rootfsFlashEvs]
  by_cases hA : w.dynAAtMount <;> by_cases hAok : w.mountSysAOk <;>
    by_cases hB : w.dynBAtMount <;> by_cases hBok : w.mountSysBOk <;>
    simp_all [List.filter_append, isRootfsFlashEv]

/-- C6 witness: with dtbo.img missing, boot.img present on the system slot
and a kernel-suffixed boot image in the fallback directory, the
fallback-sourced writes are exactly the first matches of the two name
searches. -/
theorem C6_fallback_search_witness :
    rootfsFlashEvs (factory_reset WRefetchBoot).2 =
      rootfsBootFlash WRefetchBoot ++ rootfsDtboFlash WRefetchBoot :=
  C6_fallback_search WRefetchBoot (by decide) (by decide) (by decide) (Or.inr (by decide))
    (by decide) (by decide) (by decide)

/-- C7: topology resolution performs at most one system-slot mount call;
when dynpart-system_a exists at mount time it is the one mounted (even if
dynpart-system_b also exists), otherwise dynpart-system_b when it exists;
when neither exists no mount call is made and the run fails; and whenever
the chosen mount does not succeed the run ends in Failure — exactly one of
slot A mounted, slot B mounted, fatal failure. -/
theorem C7_topology_resolution : ∀ w : World,
    (sysMountEvs (factory_reset w).2).length ≤ 1 ∧
    (w.dynAAtMount = true →
      sysMountEvs (factory_reset w).2 = [Ev.mountSys Slot.A w.mountSysAOk]) ∧
    (w.dynAAtMount = false → w.dynBAtMount = true →
      sysMountEvs (factory_reset w).2 = [Ev.mountSys Slot.B w.mountSysBOk]) ∧
    (w.dynAAtMount = false → w.dynBAtMount = false →
      sysMountEvs (factory_reset w).2 = [] ∧ (factory_reset w).1 = -1) ∧
    (sysMountOk w = false → (factory_reset w).1 = -1) := by
  intro w
  have hs := sysMountEvs_factory_reset w
  have hr := factory_reset_ret w
  refine ⟨?_, ?_, ?_, ?_, ?_⟩
  · rw [hs]; split_ifs <;> simp
  · intro h; rw [hs]; simp [h]
  · intro h1 h2; rw [hs]; simp [h1, h2]
  · intro h1 h2
    refine ⟨by rw [hs]; simp [h1, h2], ?_⟩
    rw [hr]; simp [sysMountOk, h1, h2]
  · intro h; rw [hr]; simp [h]

/-- C7 witness: with dynpart-system_a present the single mount call
targets slot A. -/
theorem C7_topology_resolution_witness :
    sysMountEvs (factory_reset WAllGood).2 = [Ev.mountSys Slot.A true] :=
  (C7_topology_resolution WAllGood).2.1 rfl

/-- C8: the dynamic-partition activation tool is invoked in a run exactly
when the super device exists and neither dynpart-system device was found
at the probe; and the tool's own exit status is not observed — the entire
run is unchanged under any value of it. -/
theorem C8_activation_tool : ∀ (w : World) (b : Bool),
    (Ev.dmsetup ∈ (factory_reset w).2 ↔
      w.superExists = true ∧ w.dynAAtProbe = false ∧ w.dynBAtProbe = false) ∧
    factory_reset { w with dmsetupOk := b } = factory_reset w := by
  intro w b
  constructor
  · have ham := dmsetup_not_mem_afterMount w
    have hact : Ev.dmsetup ∈ activationLog w ↔
        w.superExists = true ∧ w.dynAAtProbe = false ∧ w.dynBAtProbe = false := by
      simp only [activationLog]
      split_ifs with h <;> simp_all
    rw [← hact]
    simp only [factory_reset]
    by_cases hA : w.dynAAtMount <;> by_cases hAok : w.mountSysAOk <;>
      by_cases hB : w.dynBAtMount <;> by_cases hBok : w.mountSysBOk <;>
      simp_all
  · cases w
    rfl
